import Mathlib

/-!
Verification of the eflips core against its natural-language specification.

The definitions below are shallow embeddings of the Python sources:
  * src/eflips/misc.py       (class TimeInfo)            -> section Time
  * src/eflips/energy.py     (EnergyFlow, EnergyStorage,
                              ChargeController,
                              ChargingInterface)         -> section Energy
  * src/eflips/scheduling.py (generate_schedules_singledepot helpers:
                              capacity, charge duration, deadhead trips,
                              concatenation)             -> section Scheduling
  * src/eflips/schedule.py   (Node / TripNode / LegNode / SegmentNode
                              derived attributes)        -> section Scheduling

Numbers are modelled by Int (simulated seconds, weekday ordinals) and Rat
(kWh, kW, km; the reference units of energy.py).  Python divmod is floor
division; for the positive moduli used here Int.ediv / Int.emod coincide
with it.
-/

/- ===================  Time model (src/eflips/misc.py)  =================== -/

/-- A TimeInfo timestamp: weekday ordinal (the value of the module-level
weekday mapping, 0 = first day) and seconds of day.  misc.py stores the day
as a name and looks the ordinal up; ordering and arithmetic only ever use
the ordinal, so the embedding stores the ordinal directly. -/
structure TimeInfo where
  day : Int
  time : Int
  deriving DecidableEq, Repr

/-- A timestamp as constructed by the source: day ordinal in [0, 7),
seconds of day in [0, 86400). -/
def tiValid (t : TimeInfo) : Prop :=
  0 ≤ t.day ∧ t.day < 7 ∧ 0 ≤ t.time ∧ t.time < 86400

instance (t : TimeInfo) : Decidable (tiValid t) :=
  inferInstanceAs (Decidable (0 ≤ t.day ∧ t.day < 7 ∧ 0 ≤ t.time ∧ t.time < 86400))

/-- TimeInfo.getSeconds: seconds since the start of day 0. -/
def tiGetSeconds (t : TimeInfo) : Int :=
  t.day * 86400 + t.time

/-- TimeInfo.__lt__: compare times on the same day, else day ordinals. -/
def tiLt (a b : TimeInfo) : Prop :=
  if a.day = b.day then a.time < b.time else a.day < b.day

instance (a b : TimeInfo) : Decidable (tiLt a b) :=
  inferInstanceAs (Decidable (if a.day = b.day then a.time < b.time else a.day < b.day))

/-- functools.total_ordering derives __le__ from __lt__ and __eq__. -/
def tiLe (a b : TimeInfo) : Prop :=
  tiLt a b ∨ a = b

instance (a b : TimeInfo) : Decidable (tiLe a b) :=
  inferInstanceAs (Decidable (tiLt a b ∨ a = b))

/-- TimeInfo.addSeconds: offsetDays, newTime = divmod(time + seconds, 86400);
day becomes (day + offsetDays) mod 7.  (TimeInfo.__add__ copies the
timestamp and calls addSeconds on the copy.) -/
def tiAddSeconds (t : TimeInfo) (s : Int) : TimeInfo :=
  let offsetDays := (t.time + s) / 86400
  { day := (t.day + offsetDays) % 7, time := (t.time + s) % 86400 }

/-- TimeInfo.subSeconds: seconds := getSeconds - s; while seconds < 0 the
source adds 86400 (one day: the local variable is named secOfWeek but is
assigned 86400), which for a negative value amounts to taking the
representative in [0, 86400); then day, time = divmod(seconds, 86400). -/
def tiSubSeconds (t : TimeInfo) (s : Int) : TimeInfo :=
  let secs := tiGetSeconds t - s
  let secs2 := if secs < 0 then secs % 86400 else secs
  { day := secs2 / 86400, time := secs2 % 86400 }

/-- TimeInfo.__sub__: wraps over a 7-day week when self < other. -/
def tiSub (a b : TimeInfo) : Int :=
  if tiLt a b then 86400 * 7 + tiGetSeconds a - tiGetSeconds b
  else tiGetSeconds a - tiGetSeconds b

theorem tiValid_add (t : TimeInfo) (s : Int) (ht : tiValid t) (hs : 0 ≤ s) :
    tiValid (tiAddSeconds t s) := by
  obtain ⟨h1, h2, h3, h4⟩ := ht
  unfold tiAddSeconds tiValid
  refine ⟨Int.emod_nonneg _ (by norm_num), ?_, Int.emod_nonneg _ (by norm_num), ?_⟩
  · exact Int.emod_lt_of_pos _ (by norm_num)
  · exact Int.emod_lt_of_pos _ (by norm_num)

theorem tiGetSeconds_bounds (t : TimeInfo) (ht : tiValid t) :
    0 ≤ tiGetSeconds t ∧ tiGetSeconds t < 604800 := by
  obtain ⟨h1, h2, h3, h4⟩ := ht
  unfold tiGetSeconds
  constructor <;> nlinarith

/-- Adding s seconds yields the timestamp whose absolute seconds are
(getSeconds t + s) mod 604800. -/
theorem tiGetSeconds_add (t : TimeInfo) (s : Int) (ht : tiValid t) (hs : 0 ≤ s) :
    tiGetSeconds (tiAddSeconds t s) = (tiGetSeconds t + s) % 604800 := by
  obtain ⟨h1, h2, h3, h4⟩ := ht
  unfold tiAddSeconds tiGetSeconds
  simp only
  omega

/-- For valid timestamps the lexicographic order of misc.py agrees with the
order of absolute seconds. -/
theorem tiLt_iff_getSeconds (a b : TimeInfo) (ha : tiValid a) (hb : tiValid b) :
    tiLt a b ↔ tiGetSeconds a < tiGetSeconds b := by
  obtain ⟨a1, a2, a3, a4⟩ := ha
  obtain ⟨b1, b2, b3, b4⟩ := hb
  unfold tiLt tiGetSeconds
  split <;> omega

/-- Claim C4, counterexample: the claimed identity (t + dt) - t = dt fails
for dt one full week, because addition wraps the weekday modulo 7 and
subtraction wraps over the 7-day week: at t = (day 0, 0 s), dt = 604800,
(t + dt) - t evaluates to 0. -/
theorem C4_counterexample :
    ¬ (tiSub (tiAddSeconds ⟨0, 0⟩ 604800) ⟨0, 0⟩ = 604800) := by decide

/-- Claim C4, amended: for every valid timestamp t and every dt ≥ 0,
(t + dt) - t = dt mod 604800; in particular the claimed identity
(t + dt) - t = dt holds exactly when dt is less than one week.  Addition
normalises seconds via divmod by 86400 and wraps the weekday modulo 7;
subtraction wraps over a 7-day week. -/
theorem C4_time_add_sub_amended (t : TimeInfo) (dt : Int)
    (ht : tiValid t) (hdt : 0 ≤ dt) :
    tiSub (tiAddSeconds t dt) t = dt % 604800 ∧
    (dt < 604800 → tiSub (tiAddSeconds t dt) t = dt) := by
  have hv2 := tiValid_add t dt ht hdt
  have hadd := tiGetSeconds_add t dt ht hdt
  have hb1 := tiGetSeconds_bounds t ht
  have hlt := tiLt_iff_getSeconds (tiAddSeconds t dt) t hv2 ht
  unfold tiSub
  by_cases h : tiLt (tiAddSeconds t dt) t
  · rw [if_pos h]
    rw [hlt] at h
    constructor
    · omega
    · intro hw; omega
  · rw [if_neg h]
    rw [hlt] at h
    constructor
    · omega
    · intro hw; omega

/-- Claim C4, witness: the amended identity evaluated at the concrete
timestamp (day 1, 80000 s) and dt = 10000 s (an addition that rolls over
midnight). -/
theorem C4_witness :
    tiSub (tiAddSeconds ⟨1, 80000⟩ 10000) ⟨1, 80000⟩ = 10000 % 604800 ∧
    ((10000 : Int) < 604800 →
      tiSub (tiAddSeconds ⟨1, 80000⟩ 10000) ⟨1, 80000⟩ = 10000) :=
  C4_time_add_sub_amended ⟨1, 80000⟩ 10000 (by decide) (by decide)

/- ==============  Energy storage (src/eflips/energy.py)  ================== -/

/-- EnergyFlow.integrate: energy (kWh) = flow (kW) times duration (s) / 3600
(Units.wall_time.factor is 1 in the reference unit system). -/
def integrateFlow (flow duration : Rat) : Rat :=
  flow * duration / 3600

/-- The numeric state of an EnergyStorage (energy.py, class EnergyStorage).
flow is the net in-flow _flow = -port.flow (> 0: charging); flowLimitLower
is the signed discharge limit (must be negative), flowLimitUpperAbs the
charge limit (must be positive) as handed to the constructor. -/
structure EnergyStorageState where
  energyNominal : Rat
  energy : Rat
  flowLimitLower : Rat
  flowLimitUpperAbs : Rat
  dischargeEfficiency : Rat
  chargeEfficiency : Rat
  flow : Rat
  lastUpdate : Rat
  deriving DecidableEq, Repr

/-- EnergyStorage.is_full:
0.99999 * energy_max < energy < 1.00001 * energy_max
(energy_max is the energy_nominal property). -/
def isFull (s : EnergyStorageState) : Prop :=
  99999 / 100000 * s.energyNominal < s.energy ∧
    s.energy < 100001 / 100000 * s.energyNominal

instance (s : EnergyStorageState) : Decidable (isFull s) :=
  inferInstanceAs (Decidable (99999 / 100000 * s.energyNominal < s.energy ∧
    s.energy < 100001 / 100000 * s.energyNominal))

/-- EnergyStorage.flow_limit_upper: the zero flow while the storage is full,
else the configured charge limit. -/
def flowLimitUpper (s : EnergyStorageState) : Rat :=
  if isFull s then 0 else s.flowLimitUpperAbs

/-- EnergyStorage.soc_valid: only a negative energy is invalid (overcharge
is, per the source comment, prevented by the model, not by clamping). -/
def socValid (e : Rat) : Prop :=
  ¬ e < 0

instance (e : Rat) : Decidable (socValid e) :=
  inferInstanceAs (Decidable (¬ e < 0))

/-- EnergyStorage._charge: the energy booked onto the storage for a given
integration duration; a non-negative integral is scaled by the charge
efficiency, a negative one divided by the discharge efficiency.  The sum
energy + energyCharged is NOT clamped anywhere ("Over- and undercharging
protection must be implemented in superordinate methods!"). -/
def energyCharged (s : EnergyStorageState) (duration : Rat) : Rat :=
  let ec := integrateFlow s.flow duration
  if 0 ≤ ec then ec * s.chargeEfficiency else ec / s.dischargeEfficiency

/-- time_until_full of EnergyStorage._update:
(energy_max - energy) * 3600 / flow / charge_efficiency. -/
def timeUntilFull (nom e flow ce : Rat) : Rat :=
  (nom - e) * 3600 / flow / ce

/-- Outcome of one EnergyStorage._update call: the new state, whether the
soc check failed (fatal unless ALLOW_INVALID_SOC), the delay of the
_schedule_update process armed by this call (if any), and whether
fully_charged_event fired. -/
structure StorageUpdateResult where
  state : EnergyStorageState
  socInvalid : Bool
  scheduledUpdateDelay : Option Rat
  fullyCharged : Bool
  deriving DecidableEq, Repr

/-- EnergyStorage._update: integrate the held flow over (last_update, now),
add the (efficiency-scaled) energy to the stored energy, adopt the new port
flow (_calc_flow: _flow = -port.flow), check soc validity, arm the next
_schedule_update (time_until_full, or the periodic refresh interval when
FORCE_UPDATES_WHILE_CHARGING is on and full lies beyond it), and fire
fully_charged when a positive amount was charged and the storage is full. -/
def updateStorage (s : EnergyStorageState) (now portFlow : Rat)
    (forceUpdatesWhileCharging : Bool) (chargingUpdateInterval : Rat) :
    StorageUpdateResult :=
  let duration := now - s.lastUpdate
  let ec := energyCharged s duration
  let enew := s.energy + ec
  let flownew := -portFlow
  let s2 : EnergyStorageState :=
    { s with energy := enew, flow := flownew, lastUpdate := now }
  let tuf := timeUntilFull s.energyNominal enew flownew s.chargeEfficiency
  let scheduled : Option Rat :=
    if 0 < flownew then
      if 0 < tuf then
        if forceUpdatesWhileCharging then
          if tuf < chargingUpdateInterval then some tuf
          else some chargingUpdateInterval
        else some tuf
      else none
    else none
  { state := s2
    socInvalid := decide (enew < 0)
    scheduledUpdateDelay := scheduled
    fullyCharged := decide (0 < ec ∧ isFull s2) }

/-- The storage used in the counterexample to claim C1: 10 kWh nominal,
1 kWh stored, discharging at 2 kW (port flow +2, _flow = -2), unit
efficiencies, last updated at t = 0. -/
def c1Storage : EnergyStorageState :=
  { energyNominal := 10, energy := 1, flowLimitLower := -5,
    flowLimitUpperAbs := 5, dischargeEfficiency := 1, chargeEfficiency := 1,
    flow := -2, lastUpdate := 0 }

/-- Claim C1, counterexample: EnergyStorage._charge performs no clamping.
Integrating a 2 kW discharge over one hour from 1 kWh leaves the stored
energy at -1 kWh, outside [0, nominal]; the update books the negative
energy (and only afterwards flags the soc invalid). -/
theorem C1_counterexample :
    (updateStorage c1Storage 3600 2 false 60).state.energy = -1 ∧
    ¬ (0 ≤ (updateStorage c1Storage 3600 2 false 60).state.energy ∧
        (updateStorage c1Storage 3600 2 false 60).state.energy
          ≤ c1Storage.energyNominal) ∧
    (updateStorage c1Storage 3600 2 false 60).socInvalid = true := by
  norm_num [updateStorage, energyCharged, integrateFlow, c1Storage]

/-- Claim C1, amended: the integration step does not clamp the energy
(energy is updated to energy + efficiency-scaled integral, and a breach is
only flagged by the soc check afterwards: counterexample above).  The
storage bounds do hold for every charging step that does not run past the
scheduled time-until-full: if 0 ≤ energy ≤ nominal, the held net in-flow is
non-negative and now - last_update ≤ time_until_full, then the updated
energy again lies in [0, nominal]. -/
theorem C1_storage_bounds_amended (s : EnergyStorageState)
    (now portFlow : Rat) (fu : Bool) (ci : Rat)
    (h0 : 0 ≤ s.energy) (h1 : s.energy ≤ s.energyNominal)
    (hf : 0 ≤ s.flow) (hce : 0 < s.chargeEfficiency)
    (hdt : 0 ≤ now - s.lastUpdate)
    (hbound : now - s.lastUpdate
      ≤ timeUntilFull s.energyNominal s.energy s.flow s.chargeEfficiency) :
    0 ≤ (updateStorage s now portFlow fu ci).state.energy ∧
      (updateStorage s now portFlow fu ci).state.energy ≤ s.energyNominal := by
  have hecnn : 0 ≤ integrateFlow s.flow (now - s.lastUpdate) := by
    unfold integrateFlow
    positivity
  have hcharged : energyCharged s (now - s.lastUpdate)
      = integrateFlow s.flow (now - s.lastUpdate) * s.chargeEfficiency := by
    unfold energyCharged
    rw [if_pos hecnn]
  have hkey : integrateFlow s.flow (now - s.lastUpdate) * s.chargeEfficiency
      ≤ s.energyNominal - s.energy := by
    rcases eq_or_lt_of_le hf with hzero | hpos
    · unfold integrateFlow
      rw [← hzero]
      simp
      linarith
    · have htuf : now - s.lastUpdate
          ≤ (s.energyNominal - s.energy) * 3600 / (s.flow * s.chargeEfficiency) := by
        rw [← div_div]
        exact hbound
      have h2 : (now - s.lastUpdate) * (s.flow * s.chargeEfficiency)
          ≤ (s.energyNominal - s.energy) * 3600 :=
        (le_div_iff₀ (mul_pos hpos hce)).mp htuf
      unfold integrateFlow
      have hrw : s.flow * (now - s.lastUpdate) / 3600 * s.chargeEfficiency
          = (now - s.lastUpdate) * (s.flow * s.chargeEfficiency) / 3600 := by
        ring
      rw [hrw, div_le_iff₀ (by norm_num : (0:Rat) < 3600)]
      linarith
  have henergy : (updateStorage s now portFlow fu ci).state.energy
      = s.energy + energyCharged s (now - s.lastUpdate) := by
    unfold updateStorage
    simp
  rw [henergy, hcharged]
  constructor
  · nlinarith
  · linarith

/-- A charging storage used by the witnesses: 300 kWh nominal, 100 kWh
stored, charging at 150 kW net in-flow, unit efficiencies. -/
def chargingStorage : EnergyStorageState :=
  { energyNominal := 300, energy := 100, flowLimitLower := -150,
    flowLimitUpperAbs := 150, dischargeEfficiency := 1, chargeEfficiency := 1,
    flow := 150, lastUpdate := 0 }

/-- Claim C1, witness: the amended bounds evaluated on chargingStorage
integrated over 1000 s (which is within the 4800 s time-until-full). -/
theorem C1_witness :
    0 ≤ (updateStorage chargingStorage 1000 (-150) false 60).state.energy ∧
      (updateStorage chargingStorage 1000 (-150) false 60).state.energy
        ≤ chargingStorage.energyNominal :=
  C1_storage_bounds_amended chargingStorage 1000 (-150) false 60
    (by norm_num [chargingStorage]) (by norm_num [chargingStorage])
    (by norm_num [chargingStorage]) (by norm_num [chargingStorage])
    (by norm_num [chargingStorage])
    (by norm_num [chargingStorage, timeUntilFull])

/-- Claim C2: with FORCE_UPDATES_WHILE_CHARGING disabled, a storage with
net in-flow flow > 0 arms, during an update at time last_update, a
_schedule_update of exactly (nominal - energy) * 3600 / (flow * charge_eff)
seconds; if no other port change intervenes, the update executing after
that delay puts the energy exactly at nominal and fires
fully_charged_event. -/
theorem C2_fully_charged_timing (s : EnergyStorageState)
    (hnom : 0 < s.energyNominal) (he : s.energy < s.energyNominal)
    (hf : 0 < s.flow) (hce : 0 < s.chargeEfficiency) :
    (updateStorage s s.lastUpdate (-s.flow) false 60).scheduledUpdateDelay
      = some ((s.energyNominal - s.energy) * 3600
          / (s.flow * s.chargeEfficiency)) ∧
    (updateStorage (updateStorage s s.lastUpdate (-s.flow) false 60).state
        (s.lastUpdate + (s.energyNominal - s.energy) * 3600
          / (s.flow * s.chargeEfficiency)) (-s.flow) false 60).state.energy
      = s.energyNominal ∧
    (updateStorage (updateStorage s s.lastUpdate (-s.flow) false 60).state
        (s.lastUpdate + (s.energyNominal - s.energy) * 3600
          / (s.flow * s.chargeEfficiency)) (-s.flow) false 60).fullyCharged
      = true := by
  have hfne : s.flow ≠ 0 := ne_of_gt hf
  have hcene : s.chargeEfficiency ≠ 0 := ne_of_gt hce
  have hTpos : (0:Rat) < (s.energyNominal - s.energy) * 3600
      / (s.flow * s.chargeEfficiency) :=
    div_pos (by nlinarith) (mul_pos hf hce)
  have hstate : (updateStorage s s.lastUpdate (-s.flow) false 60).state = s := by
    simp [updateStorage, energyCharged, integrateFlow]
  have hec : integrateFlow s.flow
      ((s.energyNominal - s.energy) * 3600 / (s.flow * s.chargeEfficiency))
      = (s.energyNominal - s.energy) / s.chargeEfficiency := by
    unfold integrateFlow
    field_simp
    ring
  have hscaled : energyCharged s
      ((s.energyNominal - s.energy) * 3600 / (s.flow * s.chargeEfficiency))
      = s.energyNominal - s.energy := by
    unfold energyCharged
    rw [hec, if_pos (le_of_lt (div_pos (by nlinarith) hce))]
    field_simp
  refine ⟨?_, ?_, ?_⟩
  · simp only [updateStorage, energyCharged, integrateFlow, timeUntilFull]
    simp only [sub_self, mul_zero, zero_div, le_refl, if_pos, zero_mul,
      add_zero, neg_neg, Option.some.injEq]
    rw [if_pos hf]
    rw [if_pos (by rw [div_div] at *; exact hTpos), if_neg (by simp)]
    rw [div_div]
  · rw [hstate]
    have : (updateStorage s
        (s.lastUpdate + (s.energyNominal - s.energy) * 3600
          / (s.flow * s.chargeEfficiency)) (-s.flow) false 60).state.energy
        = s.energy + energyCharged s
            ((s.energyNominal - s.energy) * 3600
              / (s.flow * s.chargeEfficiency)) := by
      simp [updateStorage]
    rw [this, hscaled]
    ring
  · rw [hstate]
    simp only [updateStorage]
    simp only [add_sub_cancel_left]
    rw [decide_eq_true_eq]
    constructor
    · rw [hscaled]
      nlinarith
    · constructor
      · simp only [hscaled]
        nlinarith
      · simp only [hscaled]
        nlinarith

/-- Claim C2, witness: chargingStorage (300 kWh nominal, 100 kWh stored,
150 kW in-flow, charge efficiency 1): the armed delay is
(300 - 100) * 3600 / (150 * 1) = 4800 s and the update after it fills the
storage exactly and fires fully_charged. -/
theorem C2_witness :
    (updateStorage chargingStorage chargingStorage.lastUpdate
        (-chargingStorage.flow) false 60).scheduledUpdateDelay
      = some ((chargingStorage.energyNominal - chargingStorage.energy) * 3600
          / (chargingStorage.flow * chargingStorage.chargeEfficiency)) ∧
    (updateStorage
        (updateStorage chargingStorage chargingStorage.lastUpdate
          (-chargingStorage.flow) false 60).state
        (chargingStorage.lastUpdate
          + (chargingStorage.energyNominal - chargingStorage.energy) * 3600
            / (chargingStorage.flow * chargingStorage.chargeEfficiency))
        (-chargingStorage.flow) false 60).state.energy
      = chargingStorage.energyNominal ∧
    (updateStorage
        (updateStorage chargingStorage chargingStorage.lastUpdate
          (-chargingStorage.flow) false 60).state
        (chargingStorage.lastUpdate
          + (chargingStorage.energyNominal - chargingStorage.energy) * 3600
            / (chargingStorage.flow * chargingStorage.chargeEfficiency))
        (-chargingStorage.flow) false 60).fullyCharged = true :=
  C2_fully_charged_timing chargingStorage
    (by norm_num [chargingStorage]) (by norm_num [chargingStorage])
    (by norm_num [chargingStorage]) (by norm_num [chargingStorage])

/- ==========  Charge controller (energy.py, ChargeController)  =========== -/

/-- The five flow variables set by one ChargeController._update pass, plus
whether the consumption/recuperation excess warning was logged (the
matching raise statements in the source are commented out, so the warning
is never an error). -/
structure ControllerFlows where
  flowInterfaceToLoad : Rat
  flowInterfaceToStorage : Rat
  flowLoadToInterface : Rat
  flowLoadToStorage : Rat
  flowStorageToLoad : Rat
  warning : Bool
  deriving DecidableEq, Repr

/-- The flow-splitting part of ChargeController._update.  loadFlow is the
aggregated load_port.flow (>= 0: consumption, direction 1; < 0:
recuperation, direction -1); maxSupply is _max_supply (the connected
interface's max flow for the current driving state, or the zero flow when
no interface is connected); st supplies flow_limit_lower and the
full-aware flow_limit_upper property. -/
def ctrlUpdateFlows (loadFlow maxSupply : Rat) (bidirectional : Bool)
    (st : EnergyStorageState) : ControllerFlows :=
  if 0 ≤ loadFlow then
    let sourcePower := maxSupply + |st.flowLimitLower|
    let i2l := if loadFlow < maxSupply then loadFlow else maxSupply
    let i2sMax := maxSupply - i2l
    { flowInterfaceToLoad := i2l
      flowInterfaceToStorage :=
        if i2sMax ≤ flowLimitUpper st then i2sMax else flowLimitUpper st
      flowLoadToInterface := 0
      flowLoadToStorage := 0
      flowStorageToLoad := loadFlow - i2l
      warning := decide (sourcePower < loadFlow) }
  else
    let sinkPower :=
      if bidirectional then maxSupply + flowLimitUpper st
      else flowLimitUpper st
    let l2s :=
      if |loadFlow| ≤ flowLimitUpper st then |loadFlow| else flowLimitUpper st
    let i2sMax := flowLimitUpper st - l2s
    { flowInterfaceToLoad := 0
      flowInterfaceToStorage := if i2sMax ≤ maxSupply then i2sMax else maxSupply
      flowLoadToInterface := |loadFlow| - l2s
      flowLoadToStorage := l2s
      flowStorageToLoad := 0
      warning := decide (sinkPower < |loadFlow|) }

/-- ChargeController._update then publishes
interface_port.flow = interface-to-load + interface-to-storage
- load-to-interface. -/
def ctrlInterfacePortFlow (f : ControllerFlows) : Rat :=
  f.flowInterfaceToLoad + f.flowInterfaceToStorage - f.flowLoadToInterface

/-- Likewise charge_port.flow = storage-to-load - (load-to-storage +
interface-to-storage) (> 0: discharging the storage). -/
def ctrlChargePortFlow (f : ControllerFlows) : Rat :=
  f.flowStorageToLoad - (f.flowLoadToStorage + f.flowInterfaceToStorage)

/-- Claim C3: for a consumption update (aggregated load flow L >= 0) with
signed max interface supply S, the computed flows satisfy
interface-to-load = min(L, S), storage-to-load = L - min(L, S),
interface-to-storage = min(S - min(L, S), storage.flow_limit_upper), and
the excess warning is logged (not raised) exactly when
L > S + |storage.flow_limit_lower|. -/
theorem C3_consumption_split (L S : Rat) (b : Bool)
    (st : EnergyStorageState) (hL : 0 ≤ L) :
    (ctrlUpdateFlows L S b st).flowInterfaceToLoad = min L S ∧
    (ctrlUpdateFlows L S b st).flowStorageToLoad = L - min L S ∧
    (ctrlUpdateFlows L S b st).flowInterfaceToStorage
      = min (S - min L S) (flowLimitUpper st) ∧
    ((ctrlUpdateFlows L S b st).warning = true
      ↔ S + |st.flowLimitLower| < L) := by
  simp only [ctrlUpdateFlows, if_pos hL]
  refine ⟨?_, ?_, ?_, by simp⟩
  · rw [min_def]
    split_ifs <;> linarith
  · rw [min_def]
    split_ifs <;> linarith
  · rw [min_def, min_def]
    split_ifs <;> linarith

/-- Claim C3, witness: loads 100 kW against a 60 kW supply and a storage
with discharge limit -150 kW and charge limit 150 kW: interface covers
60 kW, storage covers 40 kW, nothing is routed into storage, no warning. -/
theorem C3_witness :
    (ctrlUpdateFlows 100 60 false chargingStorage).flowInterfaceToLoad
      = min 100 60 ∧
    (ctrlUpdateFlows 100 60 false chargingStorage).flowStorageToLoad
      = 100 - min 100 60 ∧
    (ctrlUpdateFlows 100 60 false chargingStorage).flowInterfaceToStorage
      = min (60 - min 100 60) (flowLimitUpper chargingStorage) ∧
    ((ctrlUpdateFlows 100 60 false chargingStorage).warning = true
      ↔ 60 + |chargingStorage.flowLimitLower| < 100) :=
  C3_consumption_split 100 60 false chargingStorage (by norm_num)

/-- Claim C10: whenever EnergyStorage.is_full() holds, the
flow_limit_upper property returns the zero flow, and consequently the
charge controller's interface-to-storage flow (capped by
flow_limit_upper) is zero in every update, for consumption as well as
recuperation, whatever the load flow (assuming a non-negative max supply,
as delivered by the interface types). -/
theorem C10_full_storage_blocks_charging (st : EnergyStorageState) (S : Rat)
    (hfull : isFull st) (hS : 0 ≤ S) :
    flowLimitUpper st = 0 ∧
    ∀ (L : Rat) (b : Bool),
      (ctrlUpdateFlows L S b st).flowInterfaceToStorage = 0 := by
  have hup : flowLimitUpper st = 0 := by
    unfold flowLimitUpper
    rw [if_pos hfull]
  refine ⟨hup, ?_⟩
  intro L b
  simp only [ctrlUpdateFlows, hup]
  by_cases hL : 0 ≤ L
  · rw [if_pos hL]
    simp only
    by_cases h : L < S
    · rw [if_pos h, if_neg (by simp only [not_le]; linarith)]
    · rw [if_neg h, if_pos (by linarith)]
      ring
  · rw [if_neg hL]
    push_neg at hL
    have habs : ¬ |L| ≤ 0 := not_le.mpr (abs_pos.mpr (ne_of_lt hL))
    simp only
    rw [if_neg habs, if_pos (by simpa using hS)]
    ring

/-- Claim C10, witness: a full 300 kWh storage (energy = nominal) with a
150 kW charge limit blocks all interface-to-storage flow at a 60 kW
supply; evaluated at load 100 kW, non-bidirectional. -/
theorem C10_witness :
    flowLimitUpper
      { chargingStorage with energy := chargingStorage.energyNominal } = 0 ∧
    ∀ (L : Rat) (b : Bool),
      (ctrlUpdateFlows L 60 b
        { chargingStorage with energy := chargingStorage.energyNominal
          }).flowInterfaceToStorage = 0 :=
  C10_full_storage_blocks_charging
    { chargingStorage with energy := chargingStorage.energyNominal } 60
    (by norm_num [isFull, chargingStorage]) (by norm_num)

/- ======  Interface connection (energy.py, ChargeController and
ChargingInterface)  ====== -/

/-- Errors raised by the embedded subsystems (RuntimeError and ValueError
of the source). -/
inductive SimError where
  | runtimeError
  | valueError
  deriving DecidableEq, Repr

/-- Connection state of a ChargeController: the fields
_interface_connected (an index into the controller's interface list) and
_bidirectional. -/
structure ControllerConnection where
  interfaceConnected : Option Nat
  bidirectional : Bool
  deriving DecidableEq, Repr

/-- ChargeController._connect_interface.  When some interface is already
connected, the source logs the error and constructs
RuntimeError (message: Cannot connect two interfaces at the same time) WITHOUT a
raise statement, so the exception value is discarded and execution falls
through: the sender replaces the connected interface and its
bidirectional flag is adopted.  The embedding keeps the fallible Except
shape to make this visible: no code path returns Except.error; the Bool
records whether the duplicate-connect error was logged. -/
def connectInterface (c : ControllerConnection) (sender : Nat)
    (senderBidirectional : Bool) :
    Except SimError (ControllerConnection × Bool) :=
  Except.ok
    ({ interfaceConnected := some sender,
       bidirectional := senderBidirectional },
     c.interfaceConnected.isSome)

/-- ChargingInterface.connect, for contrast: connecting one and the same
interface object to a second facility without a prior disconnect DOES
raise RuntimeError. -/
def interfaceConnect (connectedTo : Option Nat) (facility : Nat) :
    Except SimError (Option Nat) :=
  if connectedTo.isSome then Except.error SimError.runtimeError
  else Except.ok (some facility)

/-- Claim C9, code evaluation at the failing input: with interface 0
already connected, a connect event from interface 1 of the same controller
does NOT surface a fatal error -- _connect_interface logs the error, drops
the constructed RuntimeError (the raise keyword is missing in the source),
and silently installs interface 1 as the connected one.  Only the
same-object guard in ChargingInterface.connect raises. -/
theorem C9_duplicate_connect_not_fatal :
    connectInterface ⟨some 0, false⟩ 1 true
      = Except.ok (⟨some 1, true⟩, true) ∧
    interfaceConnect (some 0) 1 = Except.error SimError.runtimeError := by
  constructor <;> rfl

/- =====  Schedule tree (schedule.py) and generator (scheduling.py)  ===== -/

/-- trip_type of a TripNode in the generator: passenger trips from the
timetable, empty (deadhead / pull-out / pull-in) trips it constructs. -/
inductive TripType where
  | passenger
  | empty
  deriving DecidableEq, Repr

/-- A SegmentNode: reference to a grid segment (origin / destination grid
points, compared by name in the source; modelled by numeric ids and the
distance), a driving duration, and an optional delay (0 when absent).
Distances are km, durations and delays seconds. -/
structure SegmentN where
  originId : Nat
  destinationId : Nat
  distance : Rat
  duration : Int
  delay : Int
  deriving DecidableEq, Repr

/-- A LegNode: the stored absolute _departure timestamp, the child
segments, and the pause (dwell) after the last segment. -/
structure LegN where
  departure : TimeInfo
  segments : List SegmentN
  pause : Int
  deriving DecidableEq, Repr

/-- A TripNode: id, trip_type, line, vehicle_type, the generator's charge
attribute, and the child legs. -/
structure TripN where
  ID : Int
  tripType : TripType
  line : Nat
  vehicleType : Nat
  charge : Bool
  legs : List LegN
  deriving DecidableEq, Repr

/-- A ScheduleNode: id, vehicle_type and the child trips. -/
structure ScheduleN where
  ID : Int
  vehicleType : Nat
  trips : List TripN
  deriving DecidableEq, Repr

/-- LegNode.duration_driving: sum of the segment durations. -/
def legDurationDriving (l : LegN) : Int :=
  (l.segments.map (fun sg => sg.duration)).sum

/-- LegNode.duration = duration_driving + pause. -/
def legDuration (l : LegN) : Int :=
  legDurationDriving l + l.pause

/-- LegNode.arrival = departure + duration_driving (the pause is NOT part
of the arrival; TimeInfo.__add__ calls addSeconds on a copy). -/
def legArrival (l : LegN) : TimeInfo :=
  tiAddSeconds l.departure (legDurationDriving l)

/-- LegNode.delay: sum of the segment delays. -/
def legDelay (l : LegN) : Int :=
  (l.segments.map (fun sg => sg.delay)).sum

/-- Node.distance of a leg: sum of the segment distances. -/
def legDistance (l : LegN) : Rat :=
  (l.segments.map (fun sg => sg.distance)).sum

/-- TripNode.duration: sum of the leg durations (pauses included). -/
def tripDuration (t : TripN) : Int :=
  (t.legs.map legDuration).sum

/-- TripNode.pause: the pause at the end of the trip, i.e. of its last
leg (the source raises IndexError on a childless trip; the generator
never builds one, the embedding returns 0). -/
def tripPause (t : TripN) : Int :=
  match t.legs.getLast? with
  | some l => l.pause
  | none => 0

/-- TripNode.delay: sum of the leg delays. -/
def tripDelay (t : TripN) : Int :=
  (t.legs.map legDelay).sum

/-- Node.distance of a trip. -/
def tripDistance (t : TripN) : Rat :=
  (t.legs.map legDistance).sum

/-- Node.departure: first child's departure (None when childless). -/
def tripDeparture? (t : TripN) : Option TimeInfo :=
  t.legs.head?.map (fun l => l.departure)

/-- Node.arrival: last child's arrival (None when childless). -/
def tripArrival? (t : TripN) : Option TimeInfo :=
  t.legs.getLast?.map legArrival

/-- Node.origin: first child's origin, descending to the first segment. -/
def tripOrigin? (t : TripN) : Option Nat :=
  t.legs.head?.bind (fun l => l.segments.head?.map (fun sg => sg.originId))

/-- Node.destination: last child's destination, descending to the last
segment. -/
def tripDestination? (t : TripN) : Option Nat :=
  t.legs.getLast?.bind (fun l => l.segments.getLast?.map (fun sg => sg.destinationId))

/-- Node.distance of a schedule. -/
def scheduleDistance (s : ScheduleN) : Rat :=
  (s.trips.map tripDistance).sum

/-- Node.departure of a schedule. -/
def scheduleDeparture? (s : ScheduleN) : Option TimeInfo :=
  s.trips.head?.bind tripDeparture?

/-- Node.arrival of a schedule. -/
def scheduleArrival? (s : ScheduleN) : Option TimeInfo :=
  s.trips.getLast?.bind tripArrival?

/-- Node.origin of a schedule. -/
def scheduleOrigin? (s : ScheduleN) : Option Nat :=
  s.trips.head?.bind tripOrigin?

/-- Node.destination of a schedule. -/
def scheduleDestination? (s : ScheduleN) : Option Nat :=
  s.trips.getLast?.bind tripDestination?

/-- All legs of a schedule in order (the schedule tree flattened one
level, as walked by the driver). -/
def scheduleLegs (s : ScheduleN) : List LegN :=
  (s.trips.map (fun t => t.legs)).flatten

/-- The monotonicity invariant claimed for generated schedules: for every
pair of consecutive legs, leg.arrival <= next leg.departure (in the
TimeInfo order). -/
def legMonotone : List LegN → Prop
  | [] => True
  | [_] => True
  | a :: b :: rest => tiLe (legArrival a) b.departure ∧ legMonotone (b :: rest)

instance instDecLegMonotone : (legs : List LegN) → Decidable (legMonotone legs)
  | [] => isTrue trivial
  | [_] => isTrue trivial
  | a :: b :: rest =>
      have : Decidable (legMonotone (b :: rest)) :=
        instDecLegMonotone (b :: rest)
      inferInstanceAs (Decidable (tiLe (legArrival a) b.departure
        ∧ legMonotone (b :: rest)))

/-- delay_mode of the scheduling parameter record. -/
inductive DelayMode where
  | all
  | chargingOnly
  | selectedOnly
  deriving DecidableEq, Repr

/-- The per-vehicle-type entries of vehicle_params used by the generator
(capacity kWh, static_range km, traction_consumption kWh/km, aux powers
kW, charge_power kW, reduce_charge_time 0..1, dead_time s). -/
structure VehicleParams where
  capacity : Rat
  staticRange : Rat
  tractionConsumption : Rat
  auxPowerDriving : Rat
  auxPowerPausing : Rat
  chargePower : Rat
  reduceChargeTime : Rat
  deadTime : Rat
  deriving DecidableEq, Repr

/-- scheduling_params fields used by the embedded helpers. -/
structure SchedulingParams where
  minPauseDuration : Int
  maxPauseDuration : Int
  maxDeadheadingDuration : Int
  useStaticRange : Bool
  defaultDeadheadTripVelocity : Rat
  deadheading : Bool
  mixLinesAtStop : Bool
  mixLinesDeadheading : Bool
  addDelays : Bool
  delayMode : DelayMode
  delayedTripIds : Option (List Int)
  delayThreshold : Int
  deriving DecidableEq, Repr

/-- charging_point_names: either one list of charging point names valid
for all lines, or a per-line dict of lists (names modelled by ids). -/
inductive ChargingPoints where
  | byList (pointIds : List Nat)
  | byLine (table : List (Nat × List Nat))
  deriving DecidableEq, Repr

/-- Embeds _charging_possible(location, line, params). -/
def chargingPossible (cp : ChargingPoints) (locationId : Nat) (line : Nat) :
    Bool :=
  match cp with
  | ChargingPoints.byList pointIds => pointIds.contains locationId
  | ChargingPoints.byLine table =>
      match table.lookup line with
      | some pointIds => pointIds.contains locationId
      | none => false

/-- The add_delay_here block repeated in generate_schedules_singledepot,
_capacity and _add_deadhead_trip: delays are added when add_delays is on
and the trip is in delayed_trip_ids, or delay_mode is all, or delay_mode
is charging_only and the trip charges. -/
def addDelayHere (sp : SchedulingParams) (tripId : Int) (charge : Bool) :
    Bool :=
  sp.addDelays &&
    ((match sp.delayedTripIds with
      | some ids => ids.contains tripId
      | none => false)
     || sp.delayMode == DelayMode.all
     || (sp.delayMode == DelayMode.chargingOnly && charge))

/-- Accumulator of the _capacity walk (capacity after the trips seen so
far, running minimum, total consumptions, total distance). -/
structure CapacityResult where
  capacity : Rat
  capacityMin : Rat
  consTotalDriving : Rat
  consTotalPausing : Rat
  distanceTotal : Rat
  deriving DecidableEq, Repr

/-- One iteration of the _capacity loop over a trip: subtract the driving
consumption (distance * traction_consumption + driving time * aux power),
then pausing consumption, add the energy charged during the pause (capped
at capacity_max via min), and track the minimum after each of the two
phases. -/
def capacityStep (vp : VehicleParams) (sp : SchedulingParams)
    (st : CapacityResult) (t : TripN) : CapacityResult :=
  let delay : Int :=
    if addDelayHere sp t.ID t.charge then max (tripDelay t - sp.delayThreshold) 0
    else 0
  let timeDriving : Int := tripDuration t + delay - tripPause t
  let timePausing : Int := max (tripPause t - delay) 0
  let consDriving : Rat :=
    tripDistance t * vp.tractionConsumption
      + (timeDriving : Rat) / 3600 * vp.auxPowerDriving
  let cap1 := st.capacity - consDriving
  let min1 := if cap1 < st.capacityMin then cap1 else st.capacityMin
  let consPausing : Rat := (timePausing : Rat) / 3600 * vp.auxPowerPausing
  let maxEnergyCharged : Rat :=
    if t.charge = true ∧ vp.deadTime < (timePausing : Rat) then
      ((timePausing : Rat) - vp.deadTime) / 3600 * vp.chargePower
    else 0
  let cap2 := min vp.capacity (cap1 - consPausing + maxEnergyCharged)
  let min2 := if cap2 < min1 then cap2 else min1
  { capacity := cap2
    capacityMin := min2
    consTotalDriving := st.consTotalDriving + consDriving
    consTotalPausing := st.consTotalPausing + consPausing
    distanceTotal := st.distanceTotal + tripDistance t }

/-- Embeds _capacity(schedule_node, params): walk the trip list starting from the
nominal capacity (capacity_max = capacity_nom = vehicle capacity). -/
def capacitySchedule (trips : List TripN) (vp : VehicleParams)
    (sp : SchedulingParams) : CapacityResult :=
  trips.foldl (capacityStep vp sp)
    { capacity := vp.capacity, capacityMin := vp.capacity,
      consTotalDriving := 0, consTotalPausing := 0, distanceTotal := 0 }

/-- The charge duration formula of _charge_duration, before rounding:
((capacity_max - capacity) / (charge_power - aux_power_pausing) * 3600
 + dead_time) * (1 - reduce_charge_time). -/
def chargeFormula (vp : VehicleParams) (capacity : Rat) : Rat :=
  ((vp.capacity - capacity) / (vp.chargePower - vp.auxPowerPausing) * 3600
    + vp.deadTime) * (1 - vp.reduceChargeTime)

/-- Embeds _charge_duration(schedule_node, params): the formula applied to the
capacity at the end of the schedule walk, rounded UP TO A FULL SECOND
(math.ceil). -/
def chargeDuration (trips : List TripN) (vp : VehicleParams)
    (sp : SchedulingParams) : Int :=
  Int.ceil (chargeFormula vp (capacitySchedule trips vp sp).capacity)

/-- The additional rounding applied by the _add_deadhead_trip call sites:
pause = ceil(_charge_duration(...) / 60) * 60. -/
def roundUpToMinute (x : Int) : Int :=
  Int.ceil ((x : Rat) / 60) * 60

/-- Embeds the duration computed in _add_deadhead_trip,
ceil(distance / default_deadhead_trip_velocity * 60) * 60 (travel time in
minutes rounded up, then converted to seconds). -/
def deadheadTripDuration (distance velocity : Rat) : Int :=
  Int.ceil (distance / velocity * 60) * 60

/-- Modelled from the claim wording of C7, NOT from the source: a
duration of ceil(distance / velocity / 60) * 60 seconds with distance in
km and velocity in km/h. -/
def deadheadTripDurationClaim (distance velocity : Rat) : Int :=
  Int.ceil (distance / velocity / 60) * 60

/-- Modelled from the claim wording of C8, NOT from the source: the
charge duration formula rounded up to a full minute. -/
def chargeDurationClaim (trips : List TripN) (vp : VehicleParams)
    (sp : SchedulingParams) : Int :=
  Int.ceil (chargeFormula vp (capacitySchedule trips vp sp).capacity / 60) * 60

/-- Evaluation rule for concrete ceilings (used throughout the concrete
computations below). -/
theorem ceilRatEq (a : Rat) (z : Int) (h1 : (z : Rat) - 1 < a)
    (h2 : a ≤ (z : Rat)) : Int.ceil a = z := by
  rw [Int.ceil_eq_iff]
  exact ⟨h1, h2⟩

/-- Claim C7, counterexample: for the default 5 km at 25 km/h the source
computes ceil(5 / 25 * 60) * 60 = 720 s (12 minutes), while the claimed
formula ceil(5 / 25 / 60) * 60 evaluates to 60 s. -/
theorem C7_counterexample :
    deadheadTripDuration 5 25 = 720 ∧ deadheadTripDurationClaim 5 25 = 60 ∧
      deadheadTripDuration 5 25 ≠ deadheadTripDurationClaim 5 25 := by
  have h1 : Int.ceil ((5 : Rat) / 25 * 60) = 12 :=
    ceilRatEq _ 12 (by norm_num) (by norm_num)
  have h2 : Int.ceil ((5 : Rat) / 25 / 60) = 1 :=
    ceilRatEq _ 1 (by norm_num) (by norm_num)
  unfold deadheadTripDuration deadheadTripDurationClaim
  rw [h1, h2]
  norm_num

/-- Claim C7, amended: the deadhead trip duration is
ceil(distance / velocity * 60) * 60 seconds: the exact travel time
distance / velocity hours = distance / velocity * 3600 seconds rounded up
to the next full minute, i.e. the least multiple of 60 not below the
travel time. -/
theorem C7_deadhead_duration_amended (d v : Rat) :
    d / v * 3600 ≤ (deadheadTripDuration d v : Rat) ∧
    (deadheadTripDuration d v : Rat) < d / v * 3600 + 60 ∧
    (60 : Int) ∣ deadheadTripDuration d v := by
  unfold deadheadTripDuration
  refine ⟨?_, ?_, ⟨_, mul_comm _ _⟩⟩
  · have h := Int.le_ceil (d / v * 60)
    push_cast
    nlinarith
  · have h := Int.ceil_lt_add_one (d / v * 60)
    push_cast
    nlinarith

/-- Vehicle parameters of the charge-duration counterexample: 10 kWh
capacity, 1 kWh/km traction consumption, no aux power, 40 kW charge
power, no dead time, no charge-time reduction. -/
def c8Vehicle : VehicleParams :=
  { capacity := 10, staticRange := 1000, tractionConsumption := 1,
    auxPowerDriving := 0, auxPowerPausing := 0, chargePower := 40,
    reduceChargeTime := 0, deadTime := 0 }

/-- Scheduling parameters shared by the concrete examples (delays off). -/
def c8Sched : SchedulingParams :=
  { minPauseDuration := 240, maxPauseDuration := 2700,
    maxDeadheadingDuration := 1800, useStaticRange := false,
    defaultDeadheadTripVelocity := 25, deadheading := true,
    mixLinesAtStop := false, mixLinesDeadheading := true,
    addDelays := false, delayMode := DelayMode.all,
    delayedTripIds := none, delayThreshold := 0 }

/-- A single 1 km / 600 s passenger trip leaving stop 5 at (day 0, 600 s). -/
def c8Trip : TripN :=
  { ID := 0, tripType := TripType.passenger, line := 7, vehicleType := 1,
    charge := false,
    legs := [{ departure := ⟨0, 600⟩,
               segments := [{ originId := 5, destinationId := 6,
                              distance := 1, duration := 600, delay := 0 }],
               pause := 0 }] }

/-- Claim C8, counterexample: after c8Trip the remaining capacity is
9 kWh, the charge duration formula gives (10 - 9) / 40 * 3600 = 90 s, and
_charge_duration returns ceil(90) = 90 s -- NOT the claimed full-minute
rounding 120 s.  (Only the _add_deadhead_trip call sites round the result
up to a minute; the main-loop dwell sizing at scheduling.py line 214 uses
the second-rounded value directly.) -/
theorem C8_counterexample :
    chargeDuration [c8Trip] c8Vehicle c8Sched = 90 ∧
    chargeDurationClaim [c8Trip] c8Vehicle c8Sched = 120 ∧
    chargeDuration [c8Trip] c8Vehicle c8Sched
      ≠ chargeDurationClaim [c8Trip] c8Vehicle c8Sched := by
  have hcap : (capacitySchedule [c8Trip] c8Vehicle c8Sched).capacity = 9 := by
    norm_num [capacitySchedule, capacityStep, addDelayHere, tripDuration,
      tripPause, tripDelay, tripDistance, legDuration, legDurationDriving,
      legDelay, legDistance, c8Trip, c8Vehicle, c8Sched, min_def]
  have hform : chargeFormula c8Vehicle 9 = 90 := by
    norm_num [chargeFormula, c8Vehicle]
  have e1 : chargeDuration [c8Trip] c8Vehicle c8Sched = 90 := by
    unfold chargeDuration
    rw [hcap, hform]
    exact ceilRatEq _ 90 (by norm_num) (by norm_num)
  have e2 : chargeDurationClaim [c8Trip] c8Vehicle c8Sched = 120 := by
    unfold chargeDurationClaim
    rw [hcap, hform]
    rw [ceilRatEq ((90 : Rat) / 60) 2 (by norm_num) (by norm_num)]
    norm_num
  exact ⟨e1, e2, by rw [e1, e2]; norm_num⟩

/-- Claim C8, amended: _charge_duration returns the charge duration
formula rounded up to the next full SECOND (the least integer t with
formula <= t < formula + 1); only the _add_deadhead_trip call sites round
that value up again to a full minute, producing the least multiple of 60
not below it. -/
theorem C8_charge_duration_amended (trips : List TripN) (vp : VehicleParams)
    (sp : SchedulingParams) :
    chargeFormula vp (capacitySchedule trips vp sp).capacity
      ≤ (chargeDuration trips vp sp : Rat) ∧
    (chargeDuration trips vp sp : Rat)
      < chargeFormula vp (capacitySchedule trips vp sp).capacity + 1 ∧
    chargeDuration trips vp sp
      ≤ roundUpToMinute (chargeDuration trips vp sp) ∧
    roundUpToMinute (chargeDuration trips vp sp)
      < chargeDuration trips vp sp + 60 ∧
    (60 : Int) ∣ roundUpToMinute (chargeDuration trips vp sp) := by
  unfold chargeDuration roundUpToMinute
  set f := chargeFormula vp (capacitySchedule trips vp sp).capacity with hf
  refine ⟨Int.le_ceil f, Int.ceil_lt_add_one f, ?_, ?_, ⟨_, mul_comm _ _⟩⟩
  · have h := Int.le_ceil ((Int.ceil f : Rat) / 60)
    have h2 : ((Int.ceil f : Int) : Rat)
        ≤ ((Int.ceil ((Int.ceil f : Rat) / 60) * 60 : Int) : Rat) := by
      push_cast
      nlinarith
    exact_mod_cast h2
  · have h := Int.ceil_lt_add_one ((Int.ceil f : Rat) / 60)
    have h2 : ((Int.ceil ((Int.ceil f : Rat) / 60) * 60 : Int) : Rat)
        < ((Int.ceil f : Int) : Rat) + 60 := by
      push_cast
      nlinarith
    exact_mod_cast h2

/-- Valid timestamps with equal absolute seconds are equal. -/
theorem tiEq_of_getSeconds_eq (a b : TimeInfo) (ha : tiValid a)
    (hb : tiValid b) (h : tiGetSeconds a = tiGetSeconds b) : a = b := by
  obtain ⟨a1, a2, a3, a4⟩ := ha
  obtain ⟨b1, b2, b3, b4⟩ := hb
  unfold tiGetSeconds at h
  have hd : a.day = b.day := by omega
  have ht2 : a.time = b.time := by omega
  cases a
  cases b
  simp only [TimeInfo.mk.injEq]
  simp only at hd ht2
  exact ⟨hd, ht2⟩

/-- For valid timestamps the derived __le__ agrees with the order of
absolute seconds. -/
theorem tiLe_iff_getSeconds (a b : TimeInfo) (ha : tiValid a)
    (hb : tiValid b) : tiLe a b ↔ tiGetSeconds a ≤ tiGetSeconds b := by
  unfold tiLe
  rw [tiLt_iff_getSeconds a b ha hb]
  constructor
  · rintro (h | rfl)
    · exact le_of_lt h
    · exact le_refl _
  · intro h
    rcases lt_or_eq_of_le h with h2 | h2
    · exact Or.inl h2
    · exact Or.inr (tiEq_of_getSeconds_eq a b ha hb h2)

/-- subSeconds without underflow: when 0 <= s <= getSeconds t the while
loop never runs and divmod recovers absolute seconds getSeconds t - s. -/
theorem tiSubSeconds_noWrap (t : TimeInfo) (s : Int) (ht : tiValid t)
    (hs : 0 ≤ s) (hle : s ≤ tiGetSeconds t) :
    tiGetSeconds (tiSubSeconds t s) = tiGetSeconds t - s ∧
      tiValid (tiSubSeconds t s) := by
  obtain ⟨h1, h2, h3, h4⟩ := ht
  unfold tiGetSeconds at hle
  simp only [tiSubSeconds, tiGetSeconds, tiValid]
  split_ifs with h
  · omega
  · omega

/-- Embeds _find_next_trip(trip_node_list, location, departure_time,
vehicle_type, line): first trip of the (departure-sorted) list departing
at or after departure_time from the given location with the given vehicle
type, filtered by line unless line is "all" (modelled by none). -/
def findNextTrip (tripNodeList : List TripN) (locationId : Nat)
    (departureTime : TimeInfo) (vehicleType : Nat) (line : Option Nat) :
    Option TripN :=
  tripNodeList.find? (fun t =>
    (match tripDeparture? t, tripOrigin? t with
     | some d, some o =>
         decide (tiLe departureTime d) && (o == locationId)
           && (t.vehicleType == vehicleType)
     | _, _ => false)
    && (match line with
        | none => true
        | some l => t.line == l))

/-- The grid segment materialised for a pull-out trip (_add_deadhead_trip
with where = start): depot -> schedule origin, distance from the
grid / distance oracle (passed in as dist), duration from
deadheadTripDuration. -/
def pullOutSegment (s : ScheduleN) (dist : Rat) (depotId : Nat)
    (sp : SchedulingParams) : SegmentN :=
  { originId := depotId, destinationId := (scheduleOrigin? s).getD 0,
    distance := dist,
    duration := deadheadTripDuration dist sp.defaultDeadheadTripVelocity,
    delay := 0 }

/-- The temporary single-trip schedule built inside _add_deadhead_trip
(where = start) to size the pull-out charging pause: the new deadhead
trip with charge = True, pause still 0, departing at the schedule's
departure. -/
def pullOutTempTrip (s : ScheduleN) (line : Nat) (tripId : Int)
    (dist : Rat) (depotId : Nat) (sp : SchedulingParams) : TripN :=
  { ID := tripId, tripType := TripType.empty, line := line,
    vehicleType := s.vehicleType, charge := true,
    legs := [{ departure := (scheduleDeparture? s).getD ⟨0, 0⟩,
               segments := [pullOutSegment s dist depotId sp],
               pause := 0 }] }

/-- The pull-out pause: when the schedule origin is a charging location
for the line, the charge duration of the temporary schedule rounded up to
full minutes, else zero. -/
def pullOutPause (s : ScheduleN) (line : Nat) (tripId : Int) (dist : Rat)
    (depotId : Nat) (cp : ChargingPoints) (sp : SchedulingParams)
    (vp : VehicleParams) : Int :=
  if chargingPossible cp ((scheduleOrigin? s).getD 0) line then
    roundUpToMinute
      (chargeDuration [pullOutTempTrip s line tripId dist depotId sp] vp sp)
  else 0

/-- Embeds _add_deadhead_trip with where = start: prepend a pull-out trip whose
leg departs at schedule.departure.subSeconds(duration + pause) (the
source creates the leg sharing the departure_time object and then mutates
it), carrying the charging pause on its leg and charge = True when the
origin is a charging location. -/
def addDeadheadTripStart (s : ScheduleN) (line : Nat) (tripId : Int)
    (dist : Rat) (depotId : Nat) (cp : ChargingPoints)
    (sp : SchedulingParams) (vp : VehicleParams) : ScheduleN :=
  let duration := deadheadTripDuration dist sp.defaultDeadheadTripVelocity
  let pause := pullOutPause s line tripId dist depotId cp sp vp
  let legDep :=
    tiSubSeconds ((scheduleDeparture? s).getD ⟨0, 0⟩) (duration + pause)
  { s with trips :=
      { ID := tripId, tripType := TripType.empty, line := line,
        vehicleType := s.vehicleType,
        charge := chargingPossible cp ((scheduleOrigin? s).getD 0) line,
        legs := [{ departure := legDep,
                   segments := [pullOutSegment s dist depotId sp],
                   pause := pause }] } :: s.trips }

/-- Claim C5, amended: leg monotonicity holds at the junctions the
generator creates, PROVIDED the time arithmetic does not wrap over the
start of the 7-day week; the pull-out construction can wrap
(counterexample below), which falsifies the claim as stated.
First conjunct (pull-out junction): if the schedule's legs are monotone
and the pull-out duration + pause fits before the first departure within
the week (no wrap in subSeconds), prepending the pull-out trip preserves
leg monotonicity.
Second conjunct (forward-extension junction): a trip returned by
_find_next_trip for a minimum departure time arrival + inc (inc >= 0 the
dwell/charge increment, no wrap in addSeconds) departs no earlier than
the arrival, so the junction satisfies arrival <= departure.
Third conjunct (pull-in junction): the pull-in departure
arrival.addSeconds(pause) with pause >= 0 and no wrap is not earlier than
the arrival. -/
theorem C5_schedule_monotonicity_amended :
    (∀ (s : ScheduleN) (line : Nat) (tripId : Int) (dist : Rat)
        (depotId : Nat) (cp : ChargingPoints) (sp : SchedulingParams)
        (vp : VehicleParams) (t0 : TripN) (l0 : LegN) (restT : List TripN)
        (restL : List LegN),
        s.trips = t0 :: restT → t0.legs = l0 :: restL →
        tiValid l0.departure →
        legMonotone (scheduleLegs s) →
        0 ≤ deadheadTripDuration dist sp.defaultDeadheadTripVelocity →
        0 ≤ pullOutPause s line tripId dist depotId cp sp vp →
        deadheadTripDuration dist sp.defaultDeadheadTripVelocity
            + pullOutPause s line tripId dist depotId cp sp vp
          ≤ tiGetSeconds l0.departure →
        legMonotone (scheduleLegs
          (addDeadheadTripStart s line tripId dist depotId cp sp vp))) ∧
    (∀ (tripNodeList : List TripN) (locationId : Nat) (vehicleType : Nat)
        (line : Option Nat) (arr : TimeInfo) (inc : Int) (nt : TripN)
        (d : TimeInfo),
        findNextTrip tripNodeList locationId (tiAddSeconds arr inc)
            vehicleType line = some nt →
        tripDeparture? nt = some d →
        tiValid arr → tiValid d → 0 ≤ inc →
        tiGetSeconds arr + inc < 604800 →
        tiLe arr d) ∧
    (∀ (arr : TimeInfo) (p : Int),
        tiValid arr → 0 ≤ p → tiGetSeconds arr + p < 604800 →
        tiLe arr (tiAddSeconds arr p)) := by
  have hstep : ∀ (arr : TimeInfo) (p : Int),
      tiValid arr → 0 ≤ p → tiGetSeconds arr + p < 604800 →
      tiLe arr (tiAddSeconds arr p) := by
    intro arr p hv hp hw
    have hv2 := tiValid_add arr p hv hp
    have hadd := tiGetSeconds_add arr p hv hp
    have hb := tiGetSeconds_bounds arr hv
    rw [tiLe_iff_getSeconds arr (tiAddSeconds arr p) hv hv2, hadd]
    omega
  refine ⟨?_, ?_, hstep⟩
  · intro s line tripId dist depotId cp sp vp t0 l0 restT restL
      hs hl hv hmono hD hP hfit
    set D := deadheadTripDuration dist sp.defaultDeadheadTripVelocity with hDdef
    set P := pullOutPause s line tripId dist depotId cp sp vp with hPdef
    have hdep0 : (scheduleDeparture? s).getD ⟨0, 0⟩ = l0.departure := by
      simp [scheduleDeparture?, hs, tripDeparture?, hl]
    have hT := tiGetSeconds_bounds l0.departure hv
    have hsub := tiSubSeconds_noWrap l0.departure (D + P) hv
      (by omega) (by omega)
    have hlegsOld : scheduleLegs s = l0 :: (restL ++ (restT.map
        (fun t => t.legs)).flatten) := by
      simp [scheduleLegs, hs, hl]
    have hlegsNew : scheduleLegs
        (addDeadheadTripStart s line tripId dist depotId cp sp vp)
        = { departure := tiSubSeconds l0.departure (D + P),
            segments := [pullOutSegment s dist depotId sp],
            pause := P } :: scheduleLegs s := by
      simp only [addDeadheadTripStart, scheduleLegs, hdep0, List.map_cons,
        List.flatten_cons]
      rfl
    have hdur : legDurationDriving
        { departure := tiSubSeconds l0.departure (D + P),
          segments := [pullOutSegment s dist depotId sp],
          pause := P } = D := by
      simp [legDurationDriving, pullOutSegment]
    have harr : legArrival
        { departure := tiSubSeconds l0.departure (D + P),
          segments := [pullOutSegment s dist depotId sp],
          pause := P } = tiAddSeconds (tiSubSeconds l0.departure (D + P)) D := by
      rw [legArrival, hdur]
    have hvarr : tiValid
        (tiAddSeconds (tiSubSeconds l0.departure (D + P)) D) :=
      tiValid_add _ D hsub.2 hD
    have harrsec : tiGetSeconds
        (tiAddSeconds (tiSubSeconds l0.departure (D + P)) D)
        = tiGetSeconds l0.departure - P := by
      rw [tiGetSeconds_add _ D hsub.2 hD, hsub.1]
      omega
    rw [hlegsNew, hlegsOld]
    rw [hlegsOld] at hmono
    refine ⟨?_, hmono⟩
    rw [harr, tiLe_iff_getSeconds _ _ hvarr hv, harrsec]
    omega
  · intro tripNodeList locationId vehicleType line arr inc nt d
      hfind hd hva hvd hinc hwrap
    have hpred := List.find?_some hfind
    rw [hd] at hpred
    have hmin : tiLe (tiAddSeconds arr inc) d := by
      rcases hopt : tripOrigin? nt with _ | o
      · rw [hopt] at hpred
        simp at hpred
      · rw [hopt] at hpred
        simp only [Bool.and_eq_true, decide_eq_true_eq] at hpred
        exact hpred.1.1.1
    have hv2 := tiValid_add arr inc hva hinc
    rw [tiLe_iff_getSeconds _ _ hv2 hvd] at hmin
    rw [tiLe_iff_getSeconds _ _ hva hvd]
    have hadd := tiGetSeconds_add arr inc hva hinc
    have hb := tiGetSeconds_bounds arr hva
    have hb2 := tiGetSeconds_bounds (tiAddSeconds arr inc) hv2
    omega

/-- Vehicle for the pull-out counterexample: 100 kWh capacity, 1 kWh/km,
10 kW opportunity charge power. -/
def c5Vehicle : VehicleParams :=
  { capacity := 100, staticRange := 1000, tractionConsumption := 1,
    auxPowerDriving := 0, auxPowerPausing := 0, chargePower := 10,
    reduceChargeTime := 0, deadTime := 0 }

/-- Stop 5 is a charging point for every line. -/
def c5Points : ChargingPoints := ChargingPoints.byList [5]

/-- The first (and only) passenger leg: departs stop 5 at (day 0, 600 s),
10 km in 1800 s. -/
def c5Leg : LegN :=
  { departure := ⟨0, 600⟩,
    segments := [{ originId := 5, destinationId := 6, distance := 10,
                   duration := 1800, delay := 0 }],
    pause := 0 }

/-- The schedule holding exactly that first passenger trip, as built by
the generator right before it prepends the pull-out trip. -/
def c5Schedule : ScheduleN :=
  { ID := 0, vehicleType := 1,
    trips := [{ ID := 0, tripType := TripType.passenger, line := 7,
                vehicleType := 1, charge := false, legs := [c5Leg] }] }

/-- Claim C5, counterexample: prepending the pull-out trip (depot 9 to
stop 5, 5 km at 25 km/h = 720 s, plus a 1800 s charging pause at the
charging origin) to a passenger trip that departs at (day 0, 600 s) makes
subSeconds wrap: the pull-out leg departs at (day 0, 84480 s) and arrives
at (day 0, 85200 s), which is NOT <= the first passenger departure
(day 0, 600 s) -- the generated schedule violates
leg[i].arrival <= leg[i+1].departure. -/
theorem C5_counterexample :
    ¬ legMonotone (scheduleLegs
      (addDeadheadTripStart c5Schedule 7 100 5 9 c5Points c8Sched
        c5Vehicle)) := by
  have hdur : deadheadTripDuration 5 c8Sched.defaultDeadheadTripVelocity
      = 720 := by
    rw [show c8Sched.defaultDeadheadTripVelocity = 25 from rfl]
    unfold deadheadTripDuration
    rw [ceilRatEq ((5 : Rat) / 25 * 60) 12 (by norm_num) (by norm_num)]
    norm_num
  have hcap : (capacitySchedule
      [pullOutTempTrip c5Schedule 7 100 5 9 c8Sched] c5Vehicle
      c8Sched).capacity = 95 := by
    norm_num [capacitySchedule, capacityStep, addDelayHere, tripDuration,
      tripPause, tripDelay, tripDistance, legDuration, legDurationDriving,
      legDelay, legDistance, pullOutTempTrip, pullOutSegment,
      scheduleDeparture?, scheduleOrigin?, tripDeparture?, tripOrigin?,
      c5Schedule, c5Leg, c5Vehicle, c8Sched, min_def, hdur]
  have hform : chargeFormula c5Vehicle 95 = 1800 := by
    norm_num [chargeFormula, c5Vehicle]
  have hcd : chargeDuration [pullOutTempTrip c5Schedule 7 100 5 9 c8Sched]
      c5Vehicle c8Sched = 1800 := by
    unfold chargeDuration
    rw [hcap, hform]
    exact ceilRatEq _ 1800 (by norm_num) (by norm_num)
  have hpp : pullOutPause c5Schedule 7 100 5 9 c5Points c8Sched c5Vehicle
      = 1800 := by
    unfold pullOutPause
    rw [show chargingPossible c5Points
      ((scheduleOrigin? c5Schedule).getD 0) 7 = true from rfl]
    rw [if_pos rfl, hcd]
    unfold roundUpToMinute
    rw [ceilRatEq (((1800 : Int) : Rat) / 60) 30 (by norm_num) (by norm_num)]
    norm_num
  have hseg : pullOutSegment c5Schedule 5 9 c8Sched
      = { originId := 9, destinationId := 5, distance := 5, duration := 720,
          delay := 0 } := by
    unfold pullOutSegment
    rw [hdur]
    rfl
  have hlegs : scheduleLegs
      (addDeadheadTripStart c5Schedule 7 100 5 9 c5Points c8Sched c5Vehicle)
      = [{ departure := ⟨0, 84480⟩,
           segments := [{ originId := 9, destinationId := 5, distance := 5,
                          duration := 720, delay := 0 }],
           pause := 1800 }, c5Leg] := by
    simp only [addDeadheadTripStart, hpp, hdur, hseg]
    rw [show (scheduleDeparture? c5Schedule).getD ⟨0, 0⟩
      = (⟨0, 600⟩ : TimeInfo) from rfl]
    rw [show tiSubSeconds ⟨0, 600⟩ (720 + 1800) = (⟨0, 84480⟩ : TimeInfo)
      by decide]
    simp [scheduleLegs, c5Schedule]
  rw [hlegs]
  decide

/-- The schedule used by the C5 witness: one passenger trip leaving the
(non-charging) stop 5 at (day 0, 30000 s). -/
def c5wSchedule : ScheduleN :=
  { ID := 0, vehicleType := 1,
    trips := [{ ID := 0, tripType := TripType.passenger, line := 7,
                vehicleType := 1, charge := false,
                legs := [{ departure := ⟨0, 30000⟩,
                           segments := [{ originId := 5, destinationId := 6,
                                          distance := 10, duration := 1800,
                                          delay := 0 }],
                           pause := 0 }] }] }

/-- A connecting trip departing stop 6 at (day 0, 4200 s), used to witness
the forward-extension junction. -/
def c5wNext : TripN :=
  { ID := 1, tripType := TripType.passenger, line := 7, vehicleType := 1,
    charge := false,
    legs := [{ departure := ⟨0, 4200⟩,
               segments := [{ originId := 6, destinationId := 5,
                              distance := 10, duration := 1800, delay := 0 }],
               pause := 0 }] }

/-- Claim C5, witness: the three amended junction statements evaluated on
concrete data -- a no-wrap pull-out at (day 0, 30000 s), a found next trip
at (day 0, 4200 s) after an arrival at (day 0, 600 s) with a 1200 s dwell,
and a 1800 s pull-in pause after (day 0, 600 s). -/
theorem C5_witness :
    legMonotone (scheduleLegs (addDeadheadTripStart c5wSchedule 7 100 5 9
      (ChargingPoints.byList []) c8Sched c5Vehicle)) ∧
    tiLe ⟨0, 600⟩ ⟨0, 4200⟩ ∧
    tiLe ⟨0, 600⟩ (tiAddSeconds ⟨0, 600⟩ 1800) := by
  obtain ⟨h1, h2, h3⟩ := C5_schedule_monotonicity_amended
  have hdur : deadheadTripDuration 5 c8Sched.defaultDeadheadTripVelocity
      = 720 := by
    rw [show c8Sched.defaultDeadheadTripVelocity = 25 from rfl]
    unfold deadheadTripDuration
    rw [ceilRatEq ((5 : Rat) / 25 * 60) 12 (by norm_num) (by norm_num)]
    norm_num
  have hpp : pullOutPause c5wSchedule 7 100 5 9 (ChargingPoints.byList [])
      c8Sched c5Vehicle = 0 := by
    unfold pullOutPause
    rw [show chargingPossible (ChargingPoints.byList [])
      ((scheduleOrigin? c5wSchedule).getD 0) 7 = false from rfl]
    rw [if_neg (by simp)]
  refine ⟨?_, ?_, ?_⟩
  · exact h1 c5wSchedule 7 100 5 9 (ChargingPoints.byList []) c8Sched
      c5Vehicle _ _ _ _ rfl rfl (by decide) (by decide)
      (by rw [hdur]; norm_num) (by rw [hpp])
      (by rw [hdur, hpp]; decide)
  · exact h2 [c5wNext] 6 1 none ⟨0, 600⟩ 1200 c5wNext ⟨0, 4200⟩ rfl rfl
      (by decide) (by decide) (by norm_num) (by decide)
  · exact h3 ⟨0, 600⟩ 1800 (by decide) (by norm_num) (by decide)

/-- Assign a pause to the last leg of a leg list (the source mutates
children[-1].pause). -/
def setLastLegPause : List LegN → Int → List LegN
  | [], _ => []
  | [l], p => [{ l with pause := p }]
  | l :: rest, p => l :: setLastLegPause rest p

/-- Assign a pause to the last leg of the last trip of a trip list
(children[-1].children[-1].pause = ...). -/
def setLastTripPause : List TripN → Int → List TripN
  | [], _ => []
  | [t], p => [{ t with legs := setLastLegPause t.legs p }]
  | t :: rest, p => t :: setLastTripPause rest p

/-- Set the charge flag of the last trip of a trip list
(preceding_trip.charge = True). -/
def setLastTripCharge : List TripN → Bool → List TripN
  | [], _ => []
  | [t], c => [{ t with charge := c }]
  | t :: rest, c => t :: setLastTripCharge rest c

/-- The deadhead-removal loop of _concatenate_schedules: walk the trip
list, remove every trip of type empty, stop at the first passenger
trip. -/
def removeEmptiesUntilPassenger : List TripN → List TripN
  | [] => []
  | t :: rest =>
      match t.tripType with
      | TripType.empty => removeEmptiesUntilPassenger rest
      | TripType.passenger => t :: rest

/-- Remove the leading deadhead trips of schedule 2. -/
def stripLeadingEmpties (trips : List TripN) : List TripN :=
  removeEmptiesUntilPassenger trips

/-- Remove the trailing deadhead trips of schedule 1 (the source iterates
the reversed children). -/
def stripTrailingEmpties (trips : List TripN) : List TripN :=
  (removeEmptiesUntilPassenger trips.reverse).reverse

/-- The passenger-trip search loops of _concatenate_schedules (and of
_last_arrival_time / _first_departure_time): first trip of type passenger
in the given order. -/
def findPassenger : List TripN → Option TripN
  | [] => none
  | t :: rest =>
      if t.tripType == TripType.passenger then some t else findPassenger rest

/-- Embeds _add_deadhead_trip with where = end: append a pull-in / connecting
deadhead trip departing at schedule.arrival + pause, where pause collects
the charging dwell at the pull-in origin (rounded up to full minutes,
with the preceding pause zeroed first and the preceding trip flagged
charging afterwards) plus the configured delay padding; the pause is
booked on the preceding trip's last leg. -/
def addDeadheadTripEnd (s : ScheduleN) (line : Nat) (tripId : Int)
    (dist : Rat) (destId : Nat) (cp : ChargingPoints) (sp : SchedulingParams)
    (vp : VehicleParams) : ScheduleN :=
  let departure0 := (scheduleArrival? s).getD ⟨0, 0⟩
  let originId := (scheduleDestination? s).getD 0
  let duration := deadheadTripDuration dist sp.defaultDeadheadTripVelocity
  let chargingHere := chargingPossible cp originId line
  let trips1 := if chargingHere then setLastTripPause s.trips 0 else s.trips
  let pauseBase : Int :=
    if chargingHere then roundUpToMinute (chargeDuration trips1 vp sp) else 0
  let trips2 := if chargingHere then setLastTripCharge trips1 true else trips1
  let delayAdd : Int :=
    match trips2.getLast? with
    | some pt =>
        if addDelayHere sp pt.ID pt.charge
        then max (tripDelay pt - sp.delayThreshold) 0 else 0
    | none => 0
  let pause := pauseBase + delayAdd
  let trips3 := setLastTripPause trips2 pause
  { s with trips := trips3 ++
      [{ ID := tripId, tripType := TripType.empty, line := line,
         vehicleType := s.vehicleType, charge := false,
         legs := [{ departure := tiAddSeconds departure0 pause,
                    segments := [{ originId := originId,
                                   destinationId := destId, distance := dist,
                                   duration := duration, delay := 0 }],
                    pause := 0 }] }] }

/-- Embeds _concatenate_schedules(schedule1, schedule2, ...): ok none
when no merge is possible (vehicle types differ, lines differ with
mix_lines_deadheading off, deadheading needed but disabled, the time
window departure - arrival - charge_time outside
[0, max_deadheading_duration], or the deadhead trip arriving too late),
an error when a schedule has no passenger trip (the source raises
ValueError; it also reads line1 before that check, which would raise
NameError -- both are modelled as the error case), and otherwise the
joined schedule.  dist is the deadhead segment distance delivered by the
grid / distance oracle. -/
def concatenateSchedules (s1 s2 : ScheduleN) (dist : Rat) (tripId : Int)
    (cp : ChargingPoints) (sp : SchedulingParams) (vp : VehicleParams) :
    Except SimError (Option ScheduleN) :=
  if s1.vehicleType ≠ s2.vehicleType then Except.ok none
  else
    match findPassenger s1.trips.reverse, findPassenger s2.trips with
    | some t1, some t2 =>
        (match tripDestination? t1, tripArrival? t1, tripOrigin? t2,
            tripDeparture? t2 with
         | some originId, some arrival, some destinationId, some departure =>
             if ¬ sp.mixLinesDeadheading ∧ t1.line ≠ t2.line then
               Except.ok none
             else
               let chargeTime : Int := if t1.charge then tripPause t1 else 0
               let createDeadhead := originId ≠ destinationId
               if ¬ sp.deadheading ∧ createDeadhead then Except.ok none
               else
                 let timeAvailable :=
                   tiGetSeconds departure - tiGetSeconds arrival - chargeTime
                 if timeAvailable < 0
                     ∨ sp.maxDeadheadingDuration < timeAvailable then
                   Except.ok none
                 else
                   let s1c : ScheduleN :=
                     { s1 with trips := stripTrailingEmpties s1.trips }
                   let s2c : ScheduleN :=
                     { s2 with trips := stripLeadingEmpties s2.trips }
                   if createDeadhead then
                     let dhLine := ((s2c.trips.head?).map
                       (fun t => t.line)).getD 0
                     let s1d := addDeadheadTripEnd s1c dhLine tripId dist
                       destinationId cp sp vp
                     let minDeparture := tiAddSeconds
                       ((scheduleArrival? s1d).getD ⟨0, 0⟩)
                       ((s1d.trips.getLast?.map tripPause).getD 0)
                     let dep2 := (scheduleDeparture? s2c).getD ⟨0, 0⟩
                     if tiLt dep2 minDeparture then Except.ok none
                     else
                       let lastDep :=
                         ((s1d.trips.getLast?.bind tripDeparture?)).getD ⟨0, 0⟩
                       let lastDur :=
                         (s1d.trips.getLast?.map tripDuration).getD 0
                       let pause := tiSub dep2 lastDep - lastDur
                       Except.ok (some { s1d with
                         trips := setLastTripPause s1d.trips pause
                           ++ s2c.trips })
                   else
                     let pause :=
                       tiGetSeconds departure - tiGetSeconds arrival
                     Except.ok (some { s1c with
                       trips := setLastTripPause s1c.trips pause
                         ++ s2c.trips })
         | _, _, _, _ => Except.error SimError.valueError)
    | _, _ => Except.error SimError.valueError

/-- The accept decision of the concatenation phase in
generate_schedules_singledepot: a merge candidate is kept when its
capacity trace minimum is >= 0 and, with use_static_range on, its total
distance does not exceed the static range. -/
def concatAccept (s1 s2 : ScheduleN) (dist : Rat) (tripId : Int)
    (cp : ChargingPoints) (sp : SchedulingParams) (vp : VehicleParams) :
    Option ScheduleN :=
  match concatenateSchedules s1 s2 dist tripId cp sp vp with
  | Except.ok (some m) =>
      let cres := capacitySchedule m.trips vp sp
      let c1 : Bool := decide (0 ≤ cres.capacityMin)
      let c2 : Bool :=
        if sp.useStaticRange = true ∧ vp.staticRange < scheduleDistance m
        then false else c1
      if c2 then some m else none
  | _ => none

/-- Claim C6, amended: every merge accepted by the concatenation phase
has matching vehicle types, a non-negative merged capacity-trace minimum,
a total distance within the static range when use_static_range is on,
and a junction time window satisfying
0 <= departure - arrival - charge_time <= max_deadheading_duration --
where charge_time is the charging pause of schedule 1's last passenger
trip (0 when it does not charge).  The RAW gap departure - arrival may
therefore exceed max_deadheading_duration by up to that charging pause
(counterexample below), which corrects the claimed bound on the gap
itself. -/
theorem C6_concatenation_amended (s1 s2 : ScheduleN) (dist : Rat)
    (tripId : Int) (cp : ChargingPoints) (sp : SchedulingParams)
    (vp : VehicleParams) (m : ScheduleN) (t1 t2 : TripN)
    (arrival departure : TimeInfo)
    (h1 : findPassenger s1.trips.reverse = some t1)
    (h2 : findPassenger s2.trips = some t2)
    (ha : tripArrival? t1 = some arrival)
    (hd : tripDeparture? t2 = some departure)
    (hacc : concatAccept s1 s2 dist tripId cp sp vp = some m) :
    s1.vehicleType = s2.vehicleType ∧
    0 ≤ tiGetSeconds departure - tiGetSeconds arrival
        - (if t1.charge then tripPause t1 else 0) ∧
    tiGetSeconds departure - tiGetSeconds arrival
        - (if t1.charge then tripPause t1 else 0)
      ≤ sp.maxDeadheadingDuration ∧
    0 ≤ (capacitySchedule m.trips vp sp).capacityMin ∧
    (sp.useStaticRange = true → scheduleDistance m ≤ vp.staticRange) := by
  rcases hcs : concatenateSchedules s1 s2 dist tripId cp sp vp with e | o
  · unfold concatAccept at hacc
    rw [hcs] at hacc
    simp at hacc
  · rcases o with _ | mm
    · unfold concatAccept at hacc
      rw [hcs] at hacc
      simp at hacc
    · -- acceptance conditions from the caller
      unfold concatAccept at hacc
      rw [hcs] at hacc
      simp only at hacc
      have hia : ¬ (sp.useStaticRange = true
          ∧ vp.staticRange < scheduleDistance mm) → True := fun _ => trivial
      by_cases hr : sp.useStaticRange = true
          ∧ vp.staticRange < scheduleDistance mm
      · rw [if_pos hr] at hacc
        simp at hacc
      · rw [if_neg hr] at hacc
        by_cases hc1 : (0 : Rat) ≤ (capacitySchedule mm.trips vp sp).capacityMin
        · rw [if_pos (by simp [hc1])] at hacc
          have hmm : mm = m := by
            simpa using hacc
          subst hmm
          -- conditions checked inside _concatenate_schedules
          unfold concatenateSchedules at hcs
          by_cases hvt : s1.vehicleType ≠ s2.vehicleType
          · rw [if_pos hvt] at hcs
            simp at hcs
          · rw [if_neg hvt] at hcs
            push_neg at hvt
            rw [h1, h2] at hcs
            dsimp only at hcs
            rcases ho1 : tripDestination? t1 with _ | originId
            · rw [ho1, ha] at hcs
              simp at hcs
            · rcases ho2 : tripOrigin? t2 with _ | destinationId
              · rw [ho1, ha, ho2] at hcs
                simp at hcs
              · rw [ho1, ha, ho2, hd] at hcs
                simp only at hcs
                by_cases hmix : ¬ sp.mixLinesDeadheading = true
                    ∧ t1.line ≠ t2.line
                · rw [if_pos hmix] at hcs
                  simp at hcs
                · rw [if_neg hmix] at hcs
                  by_cases hdh : ¬ sp.deadheading = true
                      ∧ originId ≠ destinationId
                  · rw [if_pos hdh] at hcs
                    simp at hcs
                  · rw [if_neg hdh] at hcs
                    by_cases htime : tiGetSeconds departure
                          - tiGetSeconds arrival
                          - (if t1.charge = true then tripPause t1 else 0) < 0
                        ∨ sp.maxDeadheadingDuration
                          < tiGetSeconds departure - tiGetSeconds arrival
                            - (if t1.charge = true then tripPause t1 else 0)
                    · rw [if_pos htime] at hcs
                      simp at hcs
                    · refine ⟨hvt, ?_, ?_, hc1, fun hu => ?_⟩
                      · omega
                      · omega
                      · by_contra hlt
                        push_neg at hlt
                        exact hr ⟨hu, hlt⟩
        · rw [if_neg (by simp [hc1])] at hacc
          simp at hacc

/-- Vehicle for the concatenation example: no consumption, 10 kW
opportunity charging -- capacity stays at 100 kWh throughout. -/
def c6Vehicle : VehicleParams :=
  { capacity := 100, staticRange := 1000, tractionConsumption := 0,
    auxPowerDriving := 0, auxPowerPausing := 0, chargePower := 10,
    reduceChargeTime := 0, deadTime := 0 }

/-- Last passenger trip of duty 1: arrives stop 3 at (day 0, 600 s) and
charges there for 1800 s (its pull-in pause). -/
def c6P1 : TripN :=
  { ID := 10, tripType := TripType.passenger, line := 7, vehicleType := 1,
    charge := true,
    legs := [{ departure := ⟨0, 0⟩,
               segments := [{ originId := 2, destinationId := 3,
                              distance := 10, duration := 600, delay := 0 }],
               pause := 1800 }] }

/-- Pull-in trip of duty 1 (stop 3 to depot 9). -/
def c6E1 : TripN :=
  { ID := 11, tripType := TripType.empty, line := 7, vehicleType := 1,
    charge := false,
    legs := [{ departure := ⟨0, 2400⟩,
               segments := [{ originId := 3, destinationId := 9,
                              distance := 5, duration := 720, delay := 0 }],
               pause := 0 }] }

/-- Duty 1: passenger trip then pull-in. -/
def c6S1 : ScheduleN := { ID := 1, vehicleType := 1, trips := [c6P1, c6E1] }

/-- Pull-out trip of duty 2 (depot 9 to stop 3). -/
def c6E2 : TripN :=
  { ID := 12, tripType := TripType.empty, line := 7, vehicleType := 1,
    charge := false,
    legs := [{ departure := ⟨0, 3480⟩,
               segments := [{ originId := 9, destinationId := 3,
                              distance := 5, duration := 720, delay := 0 }],
               pause := 0 }] }

/-- First passenger trip of duty 2: departs stop 3 at (day 0, 4200 s). -/
def c6P2 : TripN :=
  { ID := 20, tripType := TripType.passenger, line := 7, vehicleType := 1,
    charge := false,
    legs := [{ departure := ⟨0, 4200⟩,
               segments := [{ originId := 3, destinationId := 4,
                              distance := 10, duration := 600, delay := 0 }],
               pause := 0 }] }

/-- Duty 2: pull-out then passenger trip. -/
def c6S2 : ScheduleN := { ID := 2, vehicleType := 1, trips := [c6E2, c6P2] }

/-- The merged duty _concatenate_schedules produces for c6S1 and c6S2:
deadheads stripped, junction pause 3600 s on the last passenger leg of
duty 1, duty 2's trips appended. -/
def c6Merged : ScheduleN :=
  { ID := 1, vehicleType := 1,
    trips := [{ ID := 10, tripType := TripType.passenger, line := 7,
                vehicleType := 1, charge := true,
                legs := [{ departure := ⟨0, 0⟩,
                           segments := [{ originId := 2, destinationId := 3,
                                          distance := 10, duration := 600,
                                          delay := 0 }],
                           pause := 3600 }] }, c6P2] }

/-- Evaluation of the concatenation acceptance on the concrete duties:
time_available = 4200 - 600 - 1800 = 1800 <= max_deadheading_duration,
capacity trace minimum 100 >= 0, so the merge is accepted. -/
theorem c6AcceptEval :
    concatAccept c6S1 c6S2 5 30 c5Points c8Sched c6Vehicle
      = some c6Merged := by
  have hconc : concatenateSchedules c6S1 c6S2 5 30 c5Points c8Sched c6Vehicle
      = Except.ok (some c6Merged) := by rfl
  have hcap : (capacitySchedule c6Merged.trips c6Vehicle c8Sched).capacityMin
      = 100 := by
    norm_num [capacitySchedule, capacityStep, addDelayHere, tripDuration,
      tripPause, tripDelay, tripDistance, legDuration, legDurationDriving,
      legDelay, legDistance, c6Merged, c6P2, c6Vehicle, c8Sched, min_def,
      List.foldl_cons, List.foldl_nil]
  unfold concatAccept
  rw [hconc]
  dsimp only
  rw [hcap]
  norm_num [c8Sched]

/-- Claim C6, counterexample: the merge of c6S1 and c6S2 is accepted
although the raw time gap between the last passenger arrival
(day 0, 600 s) and the first passenger departure (day 0, 4200 s) is
3600 s > max_deadheading_duration = 1800 s: the source subtracts the
1800 s charging pause before comparing against the window. -/
theorem C6_counterexample :
    concatAccept c6S1 c6S2 5 30 c5Points c8Sched c6Vehicle
      = some c6Merged ∧
    findPassenger c6S1.trips.reverse = some c6P1 ∧
    findPassenger c6S2.trips = some c6P2 ∧
    tripArrival? c6P1 = some ⟨0, 600⟩ ∧
    tripDeparture? c6P2 = some ⟨0, 4200⟩ ∧
    c8Sched.maxDeadheadingDuration
      < tiGetSeconds ⟨0, 4200⟩ - tiGetSeconds ⟨0, 600⟩ :=
  ⟨c6AcceptEval, by rfl, by rfl, by rfl, by rfl, by decide⟩

/-- Claim C6, witness: the amended soundness conditions evaluated on the
accepted merge of c6S1 and c6S2. -/
theorem C6_witness :
    c6S1.vehicleType = c6S2.vehicleType ∧
    0 ≤ tiGetSeconds ⟨0, 4200⟩ - tiGetSeconds ⟨0, 600⟩
        - (if c6P1.charge then tripPause c6P1 else 0) ∧
    tiGetSeconds ⟨0, 4200⟩ - tiGetSeconds ⟨0, 600⟩
        - (if c6P1.charge then tripPause c6P1 else 0)
      ≤ c8Sched.maxDeadheadingDuration ∧
    0 ≤ (capacitySchedule c6Merged.trips c6Vehicle c8Sched).capacityMin ∧
    (c8Sched.useStaticRange = true →
      scheduleDistance c6Merged ≤ c6Vehicle.staticRange) :=
  C6_concatenation_amended c6S1 c6S2 5 30 c5Points c8Sched c6Vehicle
    c6Merged c6P1 c6P2 ⟨0, 600⟩ ⟨0, 4200⟩ (by rfl) (by rfl) (by rfl)
    (by rfl) c6AcceptEval
